import Mathlib

/-!
Verification development for the MITRE ATT&CK RAG chatbot repository
(indexer + chatbot scripts).  The Python sources are shallowly embedded:
pure helper functions become Lean functions on `String`/`List Char`,
the external collaborators (embedding model, Chroma vector store, chat
model) are passed in as explicit function parameters, and fallible
external calls are modelled with `Except`.  Character classes of the
regexes in `text_processing.py` are modelled on their ASCII fragment
(`\s` = space/tab/newline/carriage-return/vertical-tab/form-feed,
`\w` = letters/digits/underscore), which is the fragment all claims and
tests exercise.
-/

/-! ## Definitions: shallow embedding of the Python sources -/

/-- ASCII fragment of the Python regex class `\s` (also the character set
stripped by `str.strip()`). -/
def pyIsSpace (c : Char) : Bool :=
  c = ' ' || c = '\t' || c = '\n' || c = '\r' || c = '\x0b' || c = '\x0c'

/-- ASCII fragment of the Python regex class `\w`. -/
def pyIsWord (c : Char) : Bool :=
  c.isAlpha || c.isDigit || c = '_'

/-- Characters kept by the second substitution of `clean_text`:
`re.sub(r'[^\w\s\-\.\,\:\;\!\?\(\)]', '', text)` deletes every character
outside this set. -/
def keptChar (c : Char) : Bool :=
  pyIsWord c || pyIsSpace c || c = '-' || c = '.' || c = ',' || c = ':' ||
    c = ';' || c = '!' || c = '?' || c = '(' || c = ')'

/-- `re.sub(r'\s+', ' ', text)`: every maximal run of whitespace becomes a
single space character. -/
def collapseWs : List Char → List Char
  | [] => []
  | [c] => if pyIsSpace c then [' '] else [c]
  | c :: d :: cs =>
    if pyIsSpace c then
      if pyIsSpace d then collapseWs (d :: cs)
      else ' ' :: collapseWs (d :: cs)
    else c :: collapseWs (d :: cs)

/-- Python `str.strip()`: drop leading and trailing whitespace. -/
def pyStrip (l : List Char) : List Char :=
  (((l.dropWhile pyIsSpace).reverse).dropWhile pyIsSpace).reverse

/-- `clean_text` from `src/src/utils/text_processing.py`: empty (falsy)
input short-circuits to `""`; otherwise whitespace runs are collapsed to
single spaces, characters outside `keptChar` are removed, and the result
is stripped. -/
def clean_text (s : String) : String :=
  if s = "" then ""
  else ⟨pyStrip (List.filter keptChar (collapseWs s.data))⟩

/-- Detects two consecutive whitespace characters. -/
def hasDoubleWs : List Char → Bool
  | c :: d :: cs => (pyIsSpace c && pyIsSpace d) || hasDoubleWs (d :: cs)
  | _ => false

/-- True when the list neither starts nor ends with a whitespace character. -/
def noEdgeWs (l : List Char) : Bool :=
  (l.head?.all fun c => !pyIsSpace c) && (l.getLast?.all fun c => !pyIsSpace c)

/-- Python `text.rfind(' ', 0, stop)`: the largest index `i < stop` holding
a space, as an `Option`. -/
def rfindSpace (l : List Char) (stop : Nat) : Option Nat :=
  ((List.range stop).filter fun i => l[i]? = some ' ').getLast?

/-- `truncate_text` from `src/src/utils/text_processing.py`.  Matches the
Python under the precondition `suffix.length ≤ max_length` (with a smaller
bound Python's `rfind` end argument would go negative and wrap, a case the
source never exercises). -/
def truncate_text (text : String) (max_length : Nat) (suffix : String) : String :=
  if text.length ≤ max_length then text
  else
    let stop := max_length - suffix.length
    let truncate_at := (rfindSpace text.data stop).getD stop
    ⟨text.data.take truncate_at⟩ ++ suffix

/-- Two adjacent characters are not both whitespace. -/
def NoAdjWs (a b : Char) : Prop := pyIsSpace a = false ∨ pyIsSpace b = false

/-- One entry of a record's `mitigations` list: a `{name, description}`
dict, either key possibly absent. -/
structure Mitigation where
  name : Option String
  description : Option String

/-- The metadata dict carried by a document chunk. -/
structure ChunkMeta where
  id : Option String
  name : Option String
  url : Option String
  tactics : Option String
  platforms : Option String
  datasources : Option String
  permissions_required : Option String
  detection : Option String
  mitigations : Option (List Mitigation)

/-- A langchain document chunk: its text plus its metadata dict. -/
structure Chunk where
  page_content : String
  metadata : ChunkMeta

/-- Python `sep.join(xs)`. -/
def pyJoin (sep : String) : List String → String
  | [] => ""
  | [x] => x
  | x :: xs => x ++ sep ++ pyJoin sep xs

/-- The string `pat` occurs as a contiguous substring of `s`. -/
def Occurs (pat s : String) : Prop := ∃ u v, s = u ++ (pat ++ v)

/-- One line of the `mitigation_details` block inside `build_context`:
`f"- {m.get('name', 'No name')}: {m.get('description', 'Description not available')}"`. -/
def mitigationLine (m : Mitigation) : String :=
  "- " ++ m.name.getD "No name" ++ ": " ++ m.description.getD "Description not available"

/-- `mitigation_details` from `build_context`:
`"\n".join([...])` over `doc.metadata.get("mitigations", [])`. -/
def mitigation_details (doc : Chunk) : String :=
  pyJoin "\n" ((doc.metadata.mitigations.getD []).map mitigationLine)

/-- The block appended to the context for one retrieved chunk — the body of
the `for doc in docs` loop of `build_context` in `src/src/chatbot.py`,
with each `metadata.get(key, default)` as `Option.getD`. -/
def renderChunk (doc : Chunk) : String :=
  "Technique: " ++ doc.metadata.name.getD "Unknown" ++
  " (ID: " ++ doc.metadata.id.getD "N/A" ++ ")\n" ++
  "Tactics: " ++ doc.metadata.tactics.getD "Unknown" ++ "\n" ++
  "Description: " ++ doc.page_content ++ "\n" ++
  "Detection: " ++ doc.metadata.detection.getD "Not available" ++ "\n" ++
  "Data sources: " ++ doc.metadata.datasources.getD "Not available" ++ "\n" ++
  "Required permissions: " ++ doc.metadata.permissions_required.getD "Not available" ++ "\n" ++
  "Mitigation methods:\n" ++ mitigation_details doc ++ "\n" ++
  "URL: " ++ doc.metadata.url.getD "Not available" ++ "\n\n"

inductive Role
  | system
  | human
deriving DecidableEq

structure Msg where
  role : Role
  content : String
deriving DecidableEq

/-- `SYSTEM_PROMPT` from `src/src/config.py`. -/
def SYSTEM_PROMPT : String :=
  "You are an expert assistant in MITRE ATT&CK. " ++
  "Provide clear and precise information about attack techniques, " ++
  "tactics, and countermeasures based on the MITRE knowledge base. " ++
  "You can also remember relevant details from the conversation " ++
  "to respond more efficiently and contextually " ++
  "in case previously seen cases are asked about. " ++
  "Use simple and direct language to save tokens. " ++
  "When responding, follow this structure:" ++
  "\n1. Relevant technique: Identify the technique or techniques related to the query. " ++
  "Provide the name, technique ID, and associated tactic." ++
  "\n2. Explanation: Describe how the scenario relates to the identified MITRE ATT&CK technique." ++
  "\n3. Mitigations: Provide specific and practical steps to mitigate risks " ++
  "related to the technique." ++
  "\nStructure your responses clearly and professionally, " ++
  "focusing on the user\x27s needs." ++
  "\nUse simple, clear, and direct language to ensure the user " ++
  "can easily implement the recommendations."

/-- `EXIT_COMMANDS` from `src/src/config.py`. -/
def EXIT_COMMANDS : List String := [":exit", ":quit", ":terminate", ":salir"]

/-- Python `str.strip()` on a `String` (same whitespace set as `pyStrip`). -/
def pyStripStr (s : String) : String := ⟨pyStrip s.data⟩

/-- Python `str.lower()` (the exit commands and queries involved are
ASCII, where it is a character-wise lowering). -/
def pyLower (s : String) : String := ⟨s.data.map Char.toLower⟩

/-- `build_context` from `src/src/chatbot.py`: run the similarity search
and append `renderChunk` for each retrieved document; a raised retrieval
error is caught and replaced by a fixed message. -/
def build_context (search : String → Nat → Except String (List Chunk))
    (user_query : String) (num_similar_docs : Nat) : String :=
  match search user_query num_similar_docs with
  | .error _ => "Error retrieving context information."
  | .ok docs => docs.foldl (fun context doc => context ++ renderChunk doc) ""

/-- One line of `conversation_history` in `call_model`: tagged `User:`
exactly for a `HumanMessage`, `Assistant:` otherwise. -/
def historyLine (msg : Msg) : String :=
  if msg.role = Role.human then "User: " ++ msg.content else "Assistant: " ++ msg.content

/-- The prompt assembled by `call_model` of `src/src/chatbot.py`
(`message_state["messages"][-1]` requires a non-empty list in Python;
the default of `getLastD` is never reached in the session loop and the
theorems below assume non-emptiness). -/
def call_model_prompt (search : String → Nat → Except String (List Chunk))
    (num_similar : Nat) (msgs : List Msg) : String :=
  let user_query := (msgs.getLastD ⟨Role.system, ""⟩).content
  let conversation_history := pyJoin "\n" (msgs.map historyLine)
  let context := build_context search user_query num_similar
  SYSTEM_PROMPT ++ "\n\nConversation history:\n" ++ conversation_history ++
    "\n\nRelevant context:\n" ++ context ++ "\n\nQuestion: " ++ user_query

/-- The message list `call_model` hands to `llm.invoke`:
`[SystemMessage(content=prompt)]`. -/
def call_model_sent (search : String → Nat → Except String (List Chunk))
    (num_similar : Nat) (msgs : List Msg) : List Msg :=
  [⟨Role.system, call_model_prompt search num_similar msgs⟩]

/-- `call_model` from `src/src/chatbot.py`: on success the reply is
appended as a `SystemMessage`; a raised model error is caught and an
error-marker `SystemMessage` is appended instead. -/
def call_model (llm : String → Except String String)
    (search : String → Nat → Except String (List Chunk))
    (num_similar : Nat) (msgs : List Msg) : List Msg :=
  match llm (call_model_prompt search num_similar msgs) with
  | .ok response_content => msgs ++ [⟨Role.system, response_content⟩]
  | .error e => msgs ++ [⟨Role.system, "❌ Error calling language model: " ++ e⟩]

/-- Outcome of one iteration of a chat session loop. -/
inductive StepOutcome
  | exited (msgs : List Msg)
  | warnedEmpty (msgs : List Msg)
  | answered (msgs : List Msg)
  | crashed (msgs : List Msg) (e : String)
deriving DecidableEq

/-- The message list held by the program when the iteration ends (for
`crashed`, the list at the moment the uncaught exception escapes). -/
def StepOutcome.transcript : StepOutcome → List Msg
  | .exited m => m
  | .warnedEmpty m => m
  | .answered m => m
  | .crashed m _ => m

/-- The initial message state of `main` in `src/src/chatbot.py`. -/
def initial_messages : List Msg :=
  [⟨Role.system, "You are a MITRE ATT&CK expert assistant."⟩]

/-- One iteration of the `while True` loop of `main` in
`src/src/chatbot.py`: the input is stripped; an exit command leaves the
loop; an empty query prints a warning and continues with the transcript
unchanged; otherwise the query is appended as a `HumanMessage` and
`call_model` runs (its internal `except` keeps this step from crashing). -/
def session_step (llm : String → Except String String)
    (search : String → Nat → Except String (List Chunk))
    (num_similar : Nat) (msgs : List Msg) (rawInput : String) : StepOutcome :=
  let query := pyStripStr rawInput
  if pyLower query ∈ EXIT_COMMANDS then .exited msgs
  else if query = "" then .warnedEmpty msgs
  else .answered (call_model llm search num_similar (msgs ++ [⟨Role.human, query⟩]))

/-- `TEXTO` from `src/chatbot.py`. -/
def TEXTO : String :=
  "Eres un asistente experto en MITRE ATT&CK. " ++
  "Proporcionas información clara y precisa sobre técnicas de ataque, " ++
  "tácticas y contramedidas basadas en la base de conocimientos de MITRE. " ++
  "También puedes recordar detalles relevantes de la conversación " ++
  "para responder de manera más eficiente y contextualizada " ++
  "en caso de que se pregunten casos anteriormente vistos." ++
  "Usa un lenguaje sencillo y directo para ahorrar tokens. " ++
  "Cuando respondas, sigue esta estructura:" ++
  "\n1. Técnica relevante: Identifica la técnica o técnicas relacionadas con la consulta. " ++
  "Proporciona el nombre, el ID de la técnica y la táctica asociada." ++
  "\n2. Explicación: Describe cómo se relaciona el escenario con la técnica de MITRE ATT&CK " ++
  "identificada." ++
  "\n3. Mitigaciones: Proporciona pasos específicos y prácticos para mitigar los riesgos " ++
  "relacionados con la técnica." ++
  "\nEstructura tus respuestas de forma clara y profesional, " ++
  "enfocándote en las necesidades del usuario." ++
  "\nUsa un lenguaje sencillo, claro y directo para asegurar que el usuario" ++
  " pueda implementar las recomendaciones fácilmente."

/-- One mitigation line in the legacy `build_context`. -/
def mitigationLineEs (m : Mitigation) : String :=
  "- " ++ m.name.getD "Sin nombre" ++ ": " ++ m.description.getD "Descripción no disponible"

/-- `mitigation_details` of the legacy `build_context`. -/
def mitigation_details_es (doc : Chunk) : String :=
  pyJoin "\n" ((doc.metadata.mitigations.getD []).map mitigationLineEs)

/-- The per-chunk block of the legacy `build_context` (src/chatbot.py). -/
def renderChunkEs (doc : Chunk) : String :=
  "Técnica: " ++ doc.metadata.name.getD "Desconocida" ++
  " (ID: " ++ doc.metadata.id.getD "N/A" ++ ")\n" ++
  "Tácticas: " ++ doc.metadata.tactics.getD "Desconocida" ++ "\n" ++
  "Descripción: " ++ doc.page_content ++ "\n" ++
  "Detección: " ++ doc.metadata.detection.getD "No disponible" ++ "\n" ++
  "Fuentes de datos: " ++ doc.metadata.datasources.getD "No disponible" ++ "\n" ++
  "Permisos requeridos: " ++ doc.metadata.permissions_required.getD "No disponible" ++ "\n" ++
  "Métodos de mitigación:\n" ++ mitigation_details_es doc ++ "\n" ++
  "URL: " ++ doc.metadata.url.getD "No disponible" ++ "\n\n"

/-- Legacy `build_context` (src/chatbot.py): no try/except; the search is
total here because the claims never exercise a retrieval failure in the
legacy variant. -/
def build_context_legacy (search : String → Nat → List Chunk)
    (user_query : String) (num_similar_docs : Nat) : String :=
  (search user_query num_similar_docs).foldl
    (fun context doc => context ++ renderChunkEs doc) ""

/-- One line of the legacy `conversation_history`. -/
def historyLineEs (msg : Msg) : String :=
  if msg.role = Role.human then "Usuario: " ++ msg.content else "Asistente: " ++ msg.content

/-- The prompt assembled by the legacy `call_model` (src/chatbot.py). -/
def call_model_legacy_prompt (search : String → Nat → List Chunk)
    (num_similar : Nat) (msgs : List Msg) : String :=
  let user_query := (msgs.getLastD ⟨Role.system, ""⟩).content
  let conversation_history := pyJoin "\n" (msgs.map historyLineEs)
  let context := build_context_legacy search user_query num_similar
  TEXTO ++ "\n\nHistorial de conversación:\n" ++ conversation_history ++
    "\n\nContexto relevante:\n" ++ context ++ "\n\nPregunta: " ++ user_query

/-- Legacy `call_model` from `src/chatbot.py`: NO try/except around
`llm.invoke` — a model-call failure propagates to the caller instead of
being appended to the transcript. -/
def call_model_legacy (llm : String → Except String String)
    (search : String → Nat → List Chunk) (num_similar : Nat) (msgs : List Msg) :
    Except String (List Msg) :=
  match llm (call_model_legacy_prompt search num_similar msgs) with
  | .ok response_content => .ok (msgs ++ [⟨Role.system, response_content⟩])
  | .error e => .error e

/-- One iteration of the legacy `while True` loop (src/chatbot.py): no
strip, no empty-input guard and no exception handling — an uncaught model
failure terminates the program (`crashed`). -/
def session_step_legacy (llm : String → Except String String)
    (search : String → Nat → List Chunk) (num_similar : Nat)
    (msgs : List Msg) (query : String) : StepOutcome :=
  if pyLower query ∈ [":salir", ":exit", ":terminar"] then .exited msgs
  else
    match call_model_legacy llm search num_similar (msgs ++ [⟨Role.human, query⟩]) with
    | .ok newMsgs => .answered newMsgs
    | .error e => .crashed (msgs ++ [⟨Role.human, query⟩]) e

/-- One step of the indexing pipeline. -/
inductive IndexStep
  | removeExisting
  | load
  | split
  | embed
  | write
deriving DecidableEq

/-- Result of one indexing run: the process exit status and the pipeline
steps that ran.  The persisted collection at the target path is touched
only by the `removeExisting` and `write` steps. -/
structure IndexerRun where
  exitCode : Nat
  steps : List IndexStep
deriving DecidableEq

/-- `main` of `src/src/indexer.py`.  When the vector-store path exists and
`--force` was not given it prints a warning and calls `sys.exit(0)` —
exit status 0 — before any pipeline step; with `--force` the existing
store is removed first.  The fallible external stages are abstracted by
success flags; `sys.exit(message)` and `sys.exit(1)` give exit status 1. -/
def indexer_main (storeExists force : Bool)
    (fileExists loadOk embedOk writeOk : Bool) : IndexerRun :=
  if storeExists && !force then ⟨0, []⟩
  else
    let pre : List IndexStep := if force && storeExists then [.removeExisting] else []
    if !fileExists then ⟨1, pre⟩
    else if !loadOk then ⟨1, pre ++ [.load]⟩
    else if !embedOk then ⟨1, pre ++ [.load, .split]⟩
    else if !writeOk then ⟨1, pre ++ [.load, .split, .embed]⟩
    else ⟨0, pre ++ [.load, .split, .embed, .write]⟩

/-- `main` of the legacy `src/indexer.py`: there is no `--force` flag at
all; when the vector-store path exists it calls `sys.exit(message)` —
exit status 1 — before loading anything.  (Failures of the later external
stages are not modelled; no claim depends on them here.) -/
def indexer_main_legacy (storeExists : Bool) : IndexerRun :=
  if storeExists then ⟨1, []⟩
  else ⟨0, [.load, .split, .embed, .write]⟩

/-- An input technique record (a JSON object; `none` = key absent).
`description` is the `JSONLoader` `content_key` and is required. -/
structure Record where
  id : Option String
  name : Option String
  url : Option String
  tactics : Option (List String)
  platforms : Option (List String)
  datasources : Option (List String)
  permissions_required : Option (List String)
  detection : Option String
  mitigations : Option (List Mitigation)
  description : String

/-- `extract_metadata` from `src/src/indexer.py`: list-valued fields are
joined with `", "`; missing fields default to explicit markers.  The
resulting metadata dict has every key present. -/
def extract_metadata (record : Record) : ChunkMeta :=
  { id := some (record.id.getD "Unknown")
  , name := some (record.name.getD "No name")
  , url := some (record.url.getD "Not available")
  , tactics := some (pyJoin ", " (record.tactics.getD []))
  , platforms := some (pyJoin ", " (record.platforms.getD []))
  , datasources := some (pyJoin ", " (record.datasources.getD []))
  , permissions_required := some (pyJoin ", " (record.permissions_required.getD []))
  , detection := some (record.detection.getD "Not available")
  , mitigations := some (record.mitigations.getD []) }

/-- Indexing one record: `JSONLoader` yields one document whose
`page_content` is the record's `description` and whose metadata is
`extract_metadata`; the external `RecursiveCharacterTextSplitter`
(abstracted by `splitter`) cuts the text into pieces, each resulting chunk
keeping the document's metadata unchanged (the splitter's documented
behavior). -/
def chunksOf (splitter : String → List String) (record : Record) : List Chunk :=
  (splitter record.description).map fun piece => ⟨piece, extract_metadata record⟩

/-- The initial message state of the legacy chatbot (src/chatbot.py). -/
def initial_messages_legacy : List Msg :=
  [⟨Role.system, "Eres un asistente experto en MITRE ATT&CK."⟩]

/-- The single-record indexing scenario from the specification. -/
def c4record : Record :=
  { id := some "T1059"
  , name := some "Command and Scripting Interpreter"
  , url := some "https://attack.mitre.org/techniques/T1059/"
  , tactics := some ["execution"]
  , platforms := some ["Linux", "macOS", "Windows"]
  , datasources := some ["Process"]
  , permissions_required := some ["User"]
  , detection := none
  , mitigations := some [⟨some "Code Signing", some "Enforce binary and application integrity"⟩]
  , description := "Adversaries may abuse command and script interpreters to execute commands." }

/-! ## Theorems -/

example : clean_text "  Hello   World  " = "Hello World" := by decide

example : clean_text "Hello@#$%World" = "HelloWorld" := by decide

example : clean_text "a @ b" = "a  b" := by decide

example : truncate_text "Short" 20 "..." = "Short" := by decide

example : truncate_text "This is a long text that needs to be truncated properly" 20 "..." = "This is a long..." := by decide

theorem mem_dropWhile {p : Char → Bool} {c : Char} {l : List Char}
    (h : c ∈ l.dropWhile p) : c ∈ l := by
  rw [← List.takeWhile_append_dropWhile (p := p) (l := l)]
  exact List.mem_append.mpr (Or.inr h)

theorem head?_dropWhile_not (p : Char → Bool) (l : List Char) :
    ((l.dropWhile p).head?.all fun c => !p c) = true := by
  induction l with
  | nil => rfl
  | cons c cs ih =>
    by_cases h : p c
    · rw [List.dropWhile_cons_of_pos h]; exact ih
    · rw [List.dropWhile_cons_of_neg h]; simp [h]

theorem dropWhile_eq_self_of_head (p : Char → Bool) (l : List Char)
    (h : (l.head?.all fun c => !p c) = true) : l.dropWhile p = l := by
  cases l with
  | nil => rfl
  | cons c cs =>
    have hc : p c = false := by simpa using h
    rw [List.dropWhile_cons_of_neg (by simp [hc])]

theorem getLast?_dropWhile_not (p : Char → Bool) (l : List Char)
    (h : (l.getLast?.all fun c => !p c) = true) :
    ((l.dropWhile p).getLast?.all fun c => !p c) = true := by
  cases hdw : (l.dropWhile p).getLast? with
  | none => rfl
  | some x =>
    have hx : l.getLast? = some x := by
      conv_lhs => rw [← List.takeWhile_append_dropWhile (p := p) (l := l)]
      rw [List.getLast?_append, hdw]
      rfl
    rw [hx] at h
    simpa using h

theorem mem_pyStrip {c : Char} {l : List Char} (h : c ∈ pyStrip l) : c ∈ l := by
  unfold pyStrip at h
  rw [List.mem_reverse] at h
  have h1 := mem_dropWhile h
  rw [List.mem_reverse] at h1
  exact mem_dropWhile h1

theorem noEdgeWs_pyStrip (m : List Char) : noEdgeWs (pyStrip m) = true := by
  unfold noEdgeWs pyStrip
  rw [Bool.and_eq_true]
  constructor
  · rw [List.head?_reverse]
    apply getLast?_dropWhile_not
    rw [List.getLast?_reverse]
    exact head?_dropWhile_not pyIsSpace _
  · rw [List.getLast?_reverse]
    exact head?_dropWhile_not pyIsSpace _

theorem pyStrip_eq_self {l : List Char} (h : noEdgeWs l = true) : pyStrip l = l := by
  unfold noEdgeWs at h
  rw [Bool.and_eq_true] at h
  unfold pyStrip
  rw [dropWhile_eq_self_of_head _ _ h.1]
  rw [dropWhile_eq_self_of_head _ _ (by rw [List.head?_reverse]; exact h.2)]
  exact List.reverse_reverse l

theorem collapseWs_one (c : Char) :
    collapseWs [c] = if pyIsSpace c then [' '] else [c] := rfl

theorem collapseWs_two (c d : Char) (cs : List Char) :
    collapseWs (c :: d :: cs) =
      if pyIsSpace c then
        if pyIsSpace d then collapseWs (d :: cs) else ' ' :: collapseWs (d :: cs)
      else c :: collapseWs (d :: cs) := rfl

theorem hasDoubleWs_two (c d : Char) (cs : List Char) :
    hasDoubleWs (c :: d :: cs) =
      ((pyIsSpace c && pyIsSpace d) || hasDoubleWs (d :: cs)) := rfl

theorem mem_collapseWs {c : Char} {l : List Char} (h : c ∈ collapseWs l) :
    c ∈ l ∨ c = ' ' := by
  induction l with
  | nil => simp [collapseWs] at h
  | cons a cs ih =>
    cases cs with
    | nil =>
      rw [collapseWs_one] at h
      by_cases ha : pyIsSpace a
      · simp [ha] at h; right; exact h
      · simp [ha] at h; left; simp [h]
    | cons d ds =>
      rw [collapseWs_two] at h
      by_cases ha : pyIsSpace a
      · by_cases hd : pyIsSpace d
        · simp only [if_pos ha, if_pos hd] at h
          rcases ih h with h' | h'
          · exact Or.inl (List.mem_cons_of_mem _ h')
          · exact Or.inr h'
        · simp only [if_pos ha, if_neg hd, List.mem_cons] at h
          rcases h with rfl | h'
          · exact Or.inr rfl
          · rcases ih h' with h'' | h''
            · exact Or.inl (List.mem_cons_of_mem _ h'')
            · exact Or.inr h''
      · simp only [if_neg ha, List.mem_cons] at h
        rcases h with rfl | h'
        · exact Or.inl (List.mem_cons_self _ _)
        · rcases ih h' with h'' | h''
          · exact Or.inl (List.mem_cons_of_mem _ h'')
          · exact Or.inr h''

theorem ws_mem_collapseWs {c : Char} {l : List Char} (h : c ∈ collapseWs l)
    (hc : pyIsSpace c = true) : c = ' ' := by
  induction l with
  | nil => simp [collapseWs] at h
  | cons a cs ih =>
    cases cs with
    | nil =>
      rw [collapseWs_one] at h
      by_cases ha : pyIsSpace a
      · simpa [ha] using h
      · simp [ha] at h
        subst h
        exact absurd hc (by simpa using ha)
    | cons d ds =>
      rw [collapseWs_two] at h
      by_cases ha : pyIsSpace a
      · by_cases hd : pyIsSpace d
        · simp only [if_pos ha, if_pos hd] at h
          exact ih h
        · simp only [if_pos ha, if_neg hd, List.mem_cons] at h
          rcases h with rfl | h'
          · rfl
          · exact ih h'
      · simp only [if_neg ha, List.mem_cons] at h
        rcases h with rfl | h'
        · exact absurd hc (by simpa using ha)
        · exact ih h'

theorem head?_collapseWs (d : Char) (cs : List Char) :
    (collapseWs (d :: cs)).head? = some (if pyIsSpace d then ' ' else d) := by
  induction cs generalizing d with
  | nil => rw [collapseWs_one]; by_cases h : pyIsSpace d <;> simp [h]
  | cons e es ih =>
    rw [collapseWs_two]
    by_cases hd : pyIsSpace d
    · by_cases he : pyIsSpace e
      · rw [if_pos hd, if_pos he, ih e, if_pos he, if_pos hd]
      · simp [hd, he]
    · simp [hd]

theorem hasDoubleWs_collapseWs (l : List Char) : hasDoubleWs (collapseWs l) = false := by
  induction l with
  | nil => rfl
  | cons a cs ih =>
    cases cs with
    | nil => rw [collapseWs_one]; by_cases h : pyIsSpace a <;> simp [h, hasDoubleWs]
    | cons d ds =>
      rw [collapseWs_two]
      by_cases ha : pyIsSpace a
      · by_cases hd : pyIsSpace d
        · rw [if_pos ha, if_pos hd]; exact ih
        · rw [if_pos ha, if_neg hd]
          cases hrest : collapseWs (d :: ds) with
          | nil => simp [hasDoubleWs]
          | cons r0 r' =>
            have hr0 : r0 = d := by
              have hh := head?_collapseWs d ds
              rw [hrest, if_neg hd] at hh
              simpa using hh
            subst hr0
            rw [hasDoubleWs_two]
            have hwd : pyIsSpace r0 = false := by simpa using hd
            rw [hwd]
            simp only [Bool.and_false, Bool.false_or]
            rw [← hrest]
            exact ih
      · rw [if_neg ha]
        cases hrest : collapseWs (d :: ds) with
        | nil => simp [hasDoubleWs]
        | cons r0 r' =>
          rw [hasDoubleWs_two]
          have hwa : pyIsSpace a = false := by simpa using ha
          rw [hwa]
          simp only [Bool.false_and, Bool.false_or]
          rw [← hrest]
          exact ih

theorem hasDoubleWs_eq_false_iff (l : List Char) :
    hasDoubleWs l = false ↔ l.Chain' NoAdjWs := by
  induction l with
  | nil => simp [hasDoubleWs]
  | cons a cs ih =>
    cases cs with
    | nil => simp [hasDoubleWs]
    | cons d ds =>
      rw [hasDoubleWs_two, List.chain'_cons, ← ih, Bool.or_eq_false_iff,
        Bool.and_eq_false_iff]
      exact Iff.rfl

theorem chain'_of_append {R : Char → Char → Prop} (t : List Char) {l : List Char}
    (h : List.Chain' R (t ++ l)) : List.Chain' R l := by
  induction t with
  | nil => exact h
  | cons a t' ih => exact ih h.tail

theorem chain'_reverse_noAdj {l : List Char} (h : List.Chain' NoAdjWs l) :
    List.Chain' NoAdjWs l.reverse := by
  rw [List.chain'_reverse]
  exact List.Chain'.imp (fun a b hab => Or.symm hab) h

theorem chain'_pyStrip {l : List Char} (h : List.Chain' NoAdjWs l) :
    List.Chain' NoAdjWs (pyStrip l) := by
  unfold pyStrip
  apply chain'_reverse_noAdj
  apply chain'_of_append (List.takeWhile pyIsSpace ((l.dropWhile pyIsSpace).reverse))
  rw [List.takeWhile_append_dropWhile]
  apply chain'_reverse_noAdj
  apply chain'_of_append (List.takeWhile pyIsSpace l)
  rw [List.takeWhile_append_dropWhile]
  exact h

theorem collapseWs_eq_self {l : List Char}
    (hws : ∀ c ∈ l, pyIsSpace c = true → c = ' ')
    (hdb : hasDoubleWs l = false) : collapseWs l = l := by
  induction l with
  | nil => rfl
  | cons a cs ih =>
    cases cs with
    | nil =>
      rw [collapseWs_one]
      by_cases ha : pyIsSpace a
      · rw [if_pos ha, hws a (List.mem_cons_self _ _) (by simpa using ha)]
      · rw [if_neg ha]
    | cons d ds =>
      rw [collapseWs_two]
      rw [hasDoubleWs_two, Bool.or_eq_false_iff] at hdb
      have hws' : ∀ c ∈ d :: ds, pyIsSpace c = true → c = ' ' :=
        fun c hc => hws c (List.mem_cons_of_mem _ hc)
      by_cases ha : pyIsSpace a
      · have had : pyIsSpace d = false := by
          rcases Bool.and_eq_false_iff.mp hdb.1 with h' | h'
          · exact absurd h' (by simpa using ha)
          · exact h'
        rw [if_pos ha, if_neg (by simp [had]), ih hws' hdb.2,
          hws a (List.mem_cons_self _ _) (by simpa using ha)]
      · rw [if_neg ha, ih hws' hdb.2]

/-- C9 (counterexample): `clean_text` is not idempotent and its output can
contain two consecutive whitespace characters.  On `"a @ b"` the whitespace
collapse runs first, then the removal of `@` glues the two surrounding
spaces together, yielding `"a  b"`; a second application collapses them to
`"a b"`. -/
theorem c9_counterexample :
    clean_text (clean_text "a @ b") ≠ clean_text "a @ b" ∧
    clean_text "a @ b" = "a  b" ∧
    hasDoubleWs (clean_text "a @ b").data = true := by decide

/-- C9 (amended): the output of `clean_text` never carries leading or
trailing whitespace; and on inputs containing only characters that the
special-character removal keeps (word characters, whitespace and the
allowed punctuation), `clean_text` is idempotent and its output has no two
consecutive whitespace characters.  (For inputs with removed characters,
two adjacent spaces can appear and idempotence fails, as the
counterexample shows.) -/
theorem c9_clean_text_normalization (s : String) :
    noEdgeWs (clean_text s).data = true ∧
    (s.data.all keptChar = true →
      clean_text (clean_text s) = clean_text s ∧
      hasDoubleWs (clean_text s).data = false) := by
  constructor
  · unfold clean_text
    by_cases hs : s = ""
    · rw [if_pos hs]; rfl
    · rw [if_neg hs]; exact noEdgeWs_pyStrip _
  · intro hkept
    have hkc : ∀ c ∈ collapseWs s.data, keptChar c = true := by
      intro c hc
      rcases mem_collapseWs hc with h' | h'
      · exact List.all_eq_true.mp hkept c h'
      · subst h'; decide
    by_cases hs : s = ""
    · subst hs; exact ⟨by decide, by decide⟩
    · have hfilter : List.filter keptChar (collapseWs s.data) = collapseWs s.data :=
        List.filter_eq_self.mpr hkc
      have hclean : clean_text s = String.mk (pyStrip (collapseWs s.data)) := by
        unfold clean_text
        rw [if_neg hs, hfilter]
      have hdb : hasDoubleWs (pyStrip (collapseWs s.data)) = false := by
        rw [hasDoubleWs_eq_false_iff]
        exact chain'_pyStrip ((hasDoubleWs_eq_false_iff _).mp (hasDoubleWs_collapseWs s.data))
      have hwsmem : ∀ c ∈ pyStrip (collapseWs s.data), pyIsSpace c = true → c = ' ' :=
        fun c hc hcs => ws_mem_collapseWs (mem_pyStrip hc) hcs
      refine ⟨?_, ?_⟩
      · rw [hclean]
        by_cases hm0 : String.mk (pyStrip (collapseWs s.data)) = ""
        · rw [hm0]; decide
        · unfold clean_text
          rw [if_neg hm0]
          have hdata : (String.mk (pyStrip (collapseWs s.data))).data
              = pyStrip (collapseWs s.data) := rfl
          rw [hdata, collapseWs_eq_self hwsmem hdb,
            List.filter_eq_self.mpr (fun c hc => hkc c (mem_pyStrip hc)),
            pyStrip_eq_self (noEdgeWs_pyStrip _)]
      · rw [hclean]
        exact hdb

/-- C9 witness: the amended statement evaluated on a concrete input made of
kept characters only. -/
theorem c9_witness :
    noEdgeWs (clean_text "  Hello   World  ").data = true ∧
    clean_text (clean_text "  Hello   World  ") = clean_text "  Hello   World  " ∧
    hasDoubleWs (clean_text "  Hello   World  ").data = false := by
  have h := c9_clean_text_normalization "  Hello   World  "
  exact ⟨h.1, (h.2 (by decide)).1, (h.2 (by decide)).2⟩

theorem rfindSpace_lt_stop {l : List Char} {stop i : Nat}
    (h : rfindSpace l stop = some i) : i < stop := by
  have hm := List.mem_of_getLast?_eq_some h
  have hf := List.mem_filter.mp hm
  exact List.mem_range.mp hf.1

/-- C10: `truncate_text` respects its bound: whenever the suffix fits in
`max_length`, the result has length at most `max_length`; short inputs are
returned unchanged; truncated outputs end with the suffix. -/
theorem c10_truncate_text_bound (text suffix : String) (max_length : Nat)
    (h : suffix.length ≤ max_length) :
    (truncate_text text max_length suffix).length ≤ max_length ∧
    (text.length ≤ max_length → truncate_text text max_length suffix = text) ∧
    (max_length < text.length → suffix.data <:+ (truncate_text text max_length suffix).data) := by
  unfold truncate_text
  by_cases hle : text.length ≤ max_length
  · rw [if_pos hle]
    exact ⟨hle, fun _ => rfl, fun hlt => absurd hlt (by omega)⟩
  · rw [if_neg hle]
    have hta : (rfindSpace text.data (max_length - suffix.length)).getD (max_length - suffix.length)
        ≤ max_length - suffix.length := by
      cases hr : rfindSpace text.data (max_length - suffix.length) with
      | none => simp
      | some i => simpa using Nat.le_of_lt (rfindSpace_lt_stop hr)
    refine ⟨?_, fun hc => absurd hc hle, fun _ => ⟨_, (String.data_append _ _).symm⟩⟩
    rw [String.length_append]
    have htake : (String.mk (text.data.take
        ((rfindSpace text.data (max_length - suffix.length)).getD (max_length - suffix.length)))).length
        ≤ max_length - suffix.length := by
      have : (text.data.take ((rfindSpace text.data (max_length - suffix.length)).getD
          (max_length - suffix.length))).length
          ≤ (rfindSpace text.data (max_length - suffix.length)).getD (max_length - suffix.length) := by
        rw [List.length_take]
        omega
      exact le_trans this hta
    omega

/-- C10 witness: evaluated on the concrete input from the repository's own
test suite. -/
theorem c10_witness :
    (truncate_text "This is a long text that needs to be truncated properly" 20 "...").length ≤ 20 ∧
    "...".data <:+ (truncate_text "This is a long text that needs to be truncated properly" 20 "...").data := by
  have h := c10_truncate_text_bound "This is a long text that needs to be truncated properly" "..." 20 (by decide)
  exact ⟨h.1, h.2.2 (by decide)⟩

theorem occurs_head (p v : String) : Occurs p (p ++ v) :=
  ⟨"", v, by rw [String.empty_append]⟩

theorem occurs_self (p : String) : Occurs p p :=
  ⟨"", "", by rw [String.empty_append, String.append_empty]⟩

theorem occurs_app_left (u : String) {p s : String} (h : Occurs p s) :
    Occurs p (u ++ s) := by
  obtain ⟨a, b, hab⟩ := h
  exact ⟨u ++ a, b, by rw [hab, String.append_assoc]⟩

theorem occurs_app_right (v : String) {p s : String} (h : Occurs p s) :
    Occurs p (s ++ v) := by
  obtain ⟨a, b, hab⟩ := h
  exact ⟨a, b ++ v, by rw [hab]; simp [String.append_assoc]⟩

theorem occurs_of_occurs_app {a b s : String} (h : Occurs (a ++ b) s) :
    Occurs a s := by
  obtain ⟨u, v, huv⟩ := h
  exact ⟨u, b ++ v, by rw [huv]; simp [String.append_assoc]⟩

theorem pyJoin_two (sep x y : String) (xs : List String) :
    pyJoin sep (x :: y :: xs) = x ++ sep ++ pyJoin sep (y :: xs) := rfl

theorem occurs_pyJoin_mem {x : String} {l : List String} (sep : String)
    (h : x ∈ l) : Occurs x (pyJoin sep l) := by
  induction l with
  | nil => simp at h
  | cons a l' ih =>
    cases l' with
    | nil =>
      rw [List.mem_singleton] at h
      subst h
      exact occurs_self x
    | cons b l'' =>
      rw [pyJoin_two]
      rcases List.mem_cons.mp h with rfl | h'
      · exact occurs_app_right _ (occurs_app_right _ (occurs_self x))
      · exact occurs_app_left _ (ih h')

/-- `renderChunk` regrouped into its eight labeled lines. -/
theorem renderChunk_eq (doc : Chunk) : renderChunk doc =
    ("Technique: " ++ doc.metadata.name.getD "Unknown" ++
      " (ID: " ++ doc.metadata.id.getD "N/A" ++ ")\n") ++
    (("Tactics: " ++ doc.metadata.tactics.getD "Unknown" ++ "\n") ++
    (("Description: " ++ doc.page_content ++ "\n") ++
    (("Detection: " ++ doc.metadata.detection.getD "Not available" ++ "\n") ++
    (("Data sources: " ++ doc.metadata.datasources.getD "Not available" ++ "\n") ++
    (("Required permissions: " ++ doc.metadata.permissions_required.getD "Not available" ++ "\n") ++
    (("Mitigation methods:\n" ++ mitigation_details doc ++ "\n") ++
    ("URL: " ++ doc.metadata.url.getD "Not available" ++ "\n\n"))))))) := by
  simp only [renderChunk, String.append_assoc]

theorem renderChunk_line1 (doc : Chunk) :
    Occurs ("Technique: " ++ doc.metadata.name.getD "Unknown" ++
      " (ID: " ++ doc.metadata.id.getD "N/A" ++ ")\n") (renderChunk doc) := by
  rw [renderChunk_eq]
  exact occurs_head _ _

theorem renderChunk_line2 (doc : Chunk) :
    Occurs ("Tactics: " ++ doc.metadata.tactics.getD "Unknown" ++ "\n") (renderChunk doc) := by
  rw [renderChunk_eq]
  exact occurs_app_left _ (occurs_head _ _)

theorem renderChunk_line3 (doc : Chunk) :
    Occurs ("Description: " ++ doc.page_content ++ "\n") (renderChunk doc) := by
  rw [renderChunk_eq]
  exact occurs_app_left _ (occurs_app_left _ (occurs_head _ _))

theorem renderChunk_line4 (doc : Chunk) :
    Occurs ("Detection: " ++ doc.metadata.detection.getD "Not available" ++ "\n") (renderChunk doc) := by
  rw [renderChunk_eq]
  exact occurs_app_left _ (occurs_app_left _ (occurs_app_left _ (occurs_head _ _)))

theorem renderChunk_line5 (doc : Chunk) :
    Occurs ("Data sources: " ++ doc.metadata.datasources.getD "Not available" ++ "\n") (renderChunk doc) := by
  rw [renderChunk_eq]
  exact occurs_app_left _ (occurs_app_left _ (occurs_app_left _ (occurs_app_left _ (occurs_head _ _))))

theorem renderChunk_line6 (doc : Chunk) :
    Occurs ("Required permissions: " ++ doc.metadata.permissions_required.getD "Not available" ++ "\n")
      (renderChunk doc) := by
  rw [renderChunk_eq]
  exact occurs_app_left _ (occurs_app_left _ (occurs_app_left _ (occurs_app_left _
    (occurs_app_left _ (occurs_head _ _)))))

theorem renderChunk_line7 (doc : Chunk) :
    Occurs ("Mitigation methods:\n" ++ mitigation_details doc ++ "\n") (renderChunk doc) := by
  rw [renderChunk_eq]
  exact occurs_app_left _ (occurs_app_left _ (occurs_app_left _ (occurs_app_left _
    (occurs_app_left _ (occurs_app_left _ (occurs_head _ _))))))

theorem renderChunk_line8 (doc : Chunk) :
    Occurs ("URL: " ++ doc.metadata.url.getD "Not available" ++ "\n\n") (renderChunk doc) := by
  rw [renderChunk_eq]
  exact occurs_app_left _ (occurs_app_left _ (occurs_app_left _ (occurs_app_left _
    (occurs_app_left _ (occurs_app_left _ (occurs_app_left _ (occurs_self _)))))))

theorem renderChunk_mitigation {m : Mitigation} (doc : Chunk)
    (h : m ∈ doc.metadata.mitigations.getD []) :
    Occurs (mitigationLine m) (renderChunk doc) := by
  rw [renderChunk_eq]
  have hmd : Occurs (mitigationLine m) (mitigation_details doc) :=
    occurs_pyJoin_mem "\n" (List.mem_map_of_mem mitigationLine h)
  exact occurs_app_left _ (occurs_app_left _ (occurs_app_left _ (occurs_app_left _
    (occurs_app_left _ (occurs_app_left _ (occurs_app_right _
      (occurs_app_right _ (occurs_app_left _ hmd))))))))

theorem occurs_congr {p p' s : String} (h : p = p') (ho : Occurs p s) : Occurs p' s :=
  h ▸ ho

theorem occurs_right_of_occurs_app {a b s : String} (h : Occurs (a ++ b) s) :
    Occurs b s := by
  obtain ⟨u, v, huv⟩ := h
  exact ⟨u ++ a, v, by rw [huv]; simp only [String.append_assoc]⟩

theorem occurs_trans {p q s : String} (hpq : Occurs p q) (hqs : Occurs q s) :
    Occurs p s := by
  obtain ⟨a, b, hab⟩ := hpq
  obtain ⟨u, v, huv⟩ := hqs
  exact ⟨u ++ a, b ++ v, by rw [huv, hab]; simp only [String.append_assoc]⟩

/-- C3: for every retrieved chunk, rendering is total and the block carries
a labeled line for technique name, id, tactics, description, detection,
data sources, required permissions, each mitigation's name and
description, and the source URL; every field absent from the metadata
surfaces as an explicit placeholder and no labeled line is omitted. -/
theorem c3_render_total (doc : Chunk) :
    Occurs "Technique: " (renderChunk doc) ∧
    Occurs " (ID: " (renderChunk doc) ∧
    Occurs "Tactics: " (renderChunk doc) ∧
    Occurs "Description: " (renderChunk doc) ∧
    Occurs "Detection: " (renderChunk doc) ∧
    Occurs "Data sources: " (renderChunk doc) ∧
    Occurs "Required permissions: " (renderChunk doc) ∧
    Occurs "Mitigation methods:\n" (renderChunk doc) ∧
    Occurs "URL: " (renderChunk doc) ∧
    Occurs ("Description: " ++ doc.page_content ++ "\n") (renderChunk doc) ∧
    (doc.metadata.name = none → Occurs "Technique: Unknown (ID: " (renderChunk doc)) ∧
    (doc.metadata.id = none → Occurs "(ID: N/A)\n" (renderChunk doc)) ∧
    (doc.metadata.tactics = none → Occurs "Tactics: Unknown\n" (renderChunk doc)) ∧
    (doc.metadata.detection = none → Occurs "Detection: Not available\n" (renderChunk doc)) ∧
    (doc.metadata.datasources = none → Occurs "Data sources: Not available\n" (renderChunk doc)) ∧
    (doc.metadata.permissions_required = none →
      Occurs "Required permissions: Not available\n" (renderChunk doc)) ∧
    (doc.metadata.url = none → Occurs "URL: Not available\n\n" (renderChunk doc)) ∧
    (∀ m ∈ doc.metadata.mitigations.getD [], Occurs (mitigationLine m) (renderChunk doc)) ∧
    (∀ m ∈ doc.metadata.mitigations.getD [], m.name = none →
      Occurs ("- No name: " ++ m.description.getD "Description not available") (renderChunk doc)) := by
  refine ⟨?_, ?_, ?_, ?_, ?_, ?_, ?_, ?_, ?_, renderChunk_line3 doc, ?_, ?_, ?_, ?_, ?_, ?_, ?_,
    fun m hm => renderChunk_mitigation doc hm, ?_⟩
  · exact occurs_of_occurs_app (occurs_of_occurs_app (occurs_of_occurs_app
      (occurs_of_occurs_app (renderChunk_line1 doc))))
  · exact occurs_right_of_occurs_app (occurs_of_occurs_app (occurs_of_occurs_app
      (renderChunk_line1 doc)))
  · exact occurs_of_occurs_app (occurs_of_occurs_app (renderChunk_line2 doc))
  · exact occurs_of_occurs_app (occurs_of_occurs_app (renderChunk_line3 doc))
  · exact occurs_of_occurs_app (occurs_of_occurs_app (renderChunk_line4 doc))
  · exact occurs_of_occurs_app (occurs_of_occurs_app (renderChunk_line5 doc))
  · exact occurs_of_occurs_app (occurs_of_occurs_app (renderChunk_line6 doc))
  · exact occurs_of_occurs_app (occurs_of_occurs_app (renderChunk_line7 doc))
  · exact occurs_of_occurs_app (occurs_of_occurs_app (renderChunk_line8 doc))
  · intro hname
    have h := renderChunk_line1 doc
    rw [hname] at h
    simp only [Option.getD_none] at h
    have h2 := occurs_of_occurs_app (occurs_of_occurs_app h)
    exact occurs_congr (by decide) h2
  · intro hid
    have h := renderChunk_line1 doc
    rw [hid] at h
    simp only [Option.getD_none] at h
    have hre : ("Technique: " ++ doc.metadata.name.getD "Unknown" ++ " (ID: " ++ "N/A" ++ ")\n")
        = ("Technique: " ++ doc.metadata.name.getD "Unknown") ++ (" (ID: " ++ "N/A" ++ ")\n") := by
      simp only [String.append_assoc]
    have h2 := occurs_right_of_occurs_app (occurs_congr hre h)
    exact occurs_trans ⟨" ", "", by decide⟩ h2
  · intro htac
    have h := renderChunk_line2 doc
    rw [htac] at h
    simp only [Option.getD_none] at h
    exact occurs_congr (by decide) h
  · intro hdet
    have h := renderChunk_line4 doc
    rw [hdet] at h
    simp only [Option.getD_none] at h
    exact occurs_congr (by decide) h
  · intro hds
    have h := renderChunk_line5 doc
    rw [hds] at h
    simp only [Option.getD_none] at h
    exact occurs_congr (by decide) h
  · intro hpr
    have h := renderChunk_line6 doc
    rw [hpr] at h
    simp only [Option.getD_none] at h
    exact occurs_congr (by decide) h
  · intro hurl
    have h := renderChunk_line8 doc
    rw [hurl] at h
    simp only [Option.getD_none] at h
    exact occurs_congr (by decide) h
  · intro m hm hmn
    have h := renderChunk_mitigation doc hm
    unfold mitigationLine at h
    rw [hmn] at h
    simp only [Option.getD_none] at h
    have hre : ("- " ++ "No name" ++ ": " ++ m.description.getD "Description not available")
        = "- No name: " ++ m.description.getD "Description not available" :=
      congrArg (fun x => x ++ m.description.getD "Description not available") (by decide)
    exact occurs_congr hre h

/-- C3 witness: the placeholder conjuncts evaluated on a chunk whose
metadata dict is entirely empty except for one empty mitigation dict. -/
theorem c3_witness :
    Occurs "Detection: Not available\n"
      (renderChunk ⟨"d", ⟨none, none, none, none, none, none, none, none, some [⟨none, none⟩]⟩⟩) ∧
    Occurs "Tactics: Unknown\n"
      (renderChunk ⟨"d", ⟨none, none, none, none, none, none, none, none, some [⟨none, none⟩]⟩⟩) ∧
    Occurs "- No name: Description not available"
      (renderChunk ⟨"d", ⟨none, none, none, none, none, none, none, none, some [⟨none, none⟩]⟩⟩) := by
  obtain ⟨-, -, -, -, -, -, -, -, -, -, -, -, h13, h14, -, -, -, -, h19⟩ :=
    c3_render_total ⟨"d", ⟨none, none, none, none, none, none, none, none, some [⟨none, none⟩]⟩⟩
  refine ⟨h14 rfl, h13 rfl, ?_⟩
  have := h19 ⟨none, none⟩ (by simp) rfl
  exact occurs_congr (by decide) this

/-- C1 (counterexample): with the target path present and no `--force`,
the refactored indexer (`src/src/indexer.py` line 247) exits with status
0 — `sys.exit(0)` — not with a non-zero status as claimed. -/
theorem c1_counterexample :
    (indexer_main true false true true true true).exitCode = 0 ∧
    ¬ (indexer_main true false true true true true).exitCode ≠ 0 := by decide

/-- C1 (amended): whenever the target vector-store path exists and the
force flag is not given, both indexers stop before any pipeline step — no
document loading, splitting, embedding or writing happens (`steps = []`),
so the existing collection at the path is untouched; the legacy indexer
exits with the non-zero status 1, while the refactored indexer exits with
status 0. -/
theorem c1_existing_store_early_exit (fileExists loadOk embedOk writeOk : Bool) :
    indexer_main true false fileExists loadOk embedOk writeOk = ⟨0, []⟩ ∧
    indexer_main_legacy true = ⟨1, []⟩ ∧ (1 : Nat) ≠ 0 :=
  ⟨rfl, rfl, by decide⟩

/-- C2 (counterexample): in the legacy chatbot (`src/chatbot.py`,
`call_model` has no try/except) a failing model call is NOT caught: the
error propagates out of `call_model` and the session loop, which also has
no handler, terminates without appending any error-marker message. -/
theorem c2_counterexample :
    call_model_legacy (fun _ => .error "network error") (fun _ _ => []) 6
      (initial_messages_legacy ++ [⟨Role.human, "how do attackers run scripts"⟩])
      = .error "network error" ∧
    session_step_legacy (fun _ => .error "network error") (fun _ _ => []) 6
      initial_messages_legacy "how do attackers run scripts"
      = .crashed (initial_messages_legacy ++ [⟨Role.human, "how do attackers run scripts"⟩])
          "network error" := by
  constructor
  · rfl
  · simp only [session_step_legacy]
    rw [if_neg (by decide)]
    rfl

/-- C2 (amended — holds for the refactored chatbot `src/src/chatbot.py`):
when the model call of a processed turn fails, the failure is caught
inside `call_model`: the turn completes with the user's message and an
error-marker message appended to the transcript, and the loop outcome is
`answered` — the session goes back to awaiting input rather than
terminating.  The legacy chatbot instead propagates the failure (see the
counterexample). -/
theorem c2_model_failure_caught (llm : String → Except String String)
    (search : String → Nat → Except String (List Chunk)) (num_similar : Nat)
    (msgs : List Msg) (rawInput e : String)
    (hexit : pyLower (pyStripStr rawInput) ∉ EXIT_COMMANDS)
    (hne : pyStripStr rawInput ≠ "")
    (hfail : llm (call_model_prompt search num_similar
      (msgs ++ [⟨Role.human, pyStripStr rawInput⟩])) = .error e) :
    session_step llm search num_similar msgs rawInput
      = .answered (msgs ++ [⟨Role.human, pyStripStr rawInput⟩,
          ⟨Role.system, "❌ Error calling language model: " ++ e⟩]) := by
  simp only [session_step]
  rw [if_neg hexit, if_neg hne]
  unfold call_model
  rw [hfail]
  simp

/-- C2 witness: the amended statement on a concrete failing model. -/
theorem c2_witness :
    session_step (fun _ => .error "boom") (fun _ _ => .ok []) 6
      initial_messages "what is T1059"
      = .answered (initial_messages ++ [⟨Role.human, "what is T1059"⟩,
          ⟨Role.system, "❌ Error calling language model: boom"⟩]) := by
  have h := c2_model_failure_caught (fun _ => .error "boom") (fun _ _ => .ok []) 6
    initial_messages "what is T1059" "boom" (by decide) (by decide) rfl
  exact h.trans (by decide)

/-- C4: every chunk produced from a record indexed with id `"T1059"` and
tactics `["execution"]` carries that id and the joined tactics list
unchanged in its metadata, and its rendered context block surfaces both
verbatim. -/
theorem c4_roundtrip (splitter : String → List String) (record : Record)
    (c : Chunk) (hc : c ∈ chunksOf splitter record)
    (hid : record.id = some "T1059") (htac : record.tactics = some ["execution"]) :
    c.metadata.id = some "T1059" ∧
    c.metadata.tactics = some "execution" ∧
    Occurs " (ID: T1059)\n" (renderChunk c) ∧
    Occurs "Tactics: execution\n" (renderChunk c) := by
  obtain ⟨piece, hpiece, rfl⟩ := List.mem_map.mp hc
  have hmid : (Chunk.mk piece (extract_metadata record)).metadata.id = some "T1059" := by
    simp [extract_metadata, hid]
  have hmtac : (Chunk.mk piece (extract_metadata record)).metadata.tactics = some "execution" := by
    simp [extract_metadata, htac, pyJoin]
  refine ⟨hmid, hmtac, ?_, ?_⟩
  · have h := renderChunk_line1 (Chunk.mk piece (extract_metadata record))
    rw [hmid] at h
    simp only [Option.getD_some] at h
    have hre : ("Technique: " ++
        (Chunk.mk piece (extract_metadata record)).metadata.name.getD "Unknown" ++
        " (ID: " ++ "T1059" ++ ")\n")
        = ("Technique: " ++
            (Chunk.mk piece (extract_metadata record)).metadata.name.getD "Unknown") ++
          (" (ID: " ++ "T1059" ++ ")\n") := by
      simp only [String.append_assoc]
    exact occurs_congr (by decide) (occurs_right_of_occurs_app (occurs_congr hre h))
  · have h := renderChunk_line2 (Chunk.mk piece (extract_metadata record))
    rw [hmtac] at h
    simp only [Option.getD_some] at h
    exact occurs_congr (by decide) h

/-- C4 witness: the round-trip on the concrete spec scenario, with the
identity splitter. -/
theorem c4_witness :
    (Chunk.mk c4record.description (extract_metadata c4record)).metadata.id = some "T1059" ∧
    Occurs " (ID: T1059)\n"
      (renderChunk (Chunk.mk c4record.description (extract_metadata c4record))) ∧
    Occurs "Tactics: execution\n"
      (renderChunk (Chunk.mk c4record.description (extract_metadata c4record))) := by
  have h := c4_roundtrip (fun s => [s]) c4record
    (Chunk.mk c4record.description (extract_metadata c4record))
    (by simp [chunksOf]) rfl rfl
  exact ⟨h.1, h.2.2.1, h.2.2.2⟩

/-- C5: for every non-empty message state, a single system-role message is
sent to the chat model, whose content is the ordered concatenation of the
fixed persona, the transcript rendered as `User:`/`Assistant:` lines
(`User:` exactly for human messages), the assembled context block, and the
current question. -/
theorem c5_prompt_assembly (search : String → Nat → Except String (List Chunk))
    (num_similar : Nat) (msgs : List Msg) (h : msgs ≠ []) :
    call_model_sent search num_similar msgs =
      [⟨Role.system,
        SYSTEM_PROMPT ++ "\n\nConversation history:\n" ++
          pyJoin "\n" (msgs.map fun m =>
            if m.role = Role.human then "User: " ++ m.content
            else "Assistant: " ++ m.content) ++
          "\n\nRelevant context:\n" ++
          build_context search (msgs.getLast h).content num_similar ++
          "\n\nQuestion: " ++ (msgs.getLast h).content⟩] := by
  have hlast : msgs.getLastD ⟨Role.system, ""⟩ = msgs.getLast h := by
    rw [List.getLastD_eq_getLast?, List.getLast?_eq_getLast msgs h]
    rfl
  simp only [call_model_sent, call_model_prompt, hlast]
  rfl

/-- C5 witness: a concrete two-message state; the sent list has exactly
one message and it is system-role. -/
theorem c5_witness :
    (call_model_sent (fun _ _ => .ok []) 3
      [⟨Role.system, "s"⟩, ⟨Role.human, "q"⟩]).length = 1 ∧
    (call_model_sent (fun _ _ => .ok []) 3
      [⟨Role.system, "s"⟩, ⟨Role.human, "q"⟩]).map Msg.role = [Role.system] := by
  have h := c5_prompt_assembly (fun _ _ => .ok []) 3
    [⟨Role.system, "s"⟩, ⟨Role.human, "q"⟩] (by decide)
  rw [h]
  exact ⟨rfl, rfl⟩

/-- C6: with a well-behaved store (`similarity_search` returns at most `k`
documents), the built context is exactly the concatenation of one rendered
block per retrieved chunk — hence at most `k` blocks — and an empty
retrieval (in particular `k = 0`) yields the empty context string rather
than an error. -/
theorem c6_build_context_bounded (search : String → Nat → Except String (List Chunk))
    (q : String) (k : Nat) (docs : List Chunk)
    (hok : search q k = .ok docs) (hk : docs.length ≤ k) :
    build_context search q k = String.join (docs.map renderChunk) ∧
    (docs.map renderChunk).length ≤ k ∧
    (docs = [] → build_context search q k = "") := by
  have hbc : build_context search q k
      = docs.foldl (fun context doc => context ++ renderChunk doc) "" := by
    unfold build_context
    rw [hok]
  refine ⟨?_, by simpa using hk, fun hnil => by rw [hbc, hnil]; rfl⟩
  rw [hbc]
  unfold String.join
  rw [List.foldl_map]

/-- C6 witness: a one-hit store at `k = 3` and an empty retrieval at
`k = 0`. -/
theorem c6_witness :
    build_context
      (fun _ _ => .ok [⟨"c", ⟨none, none, none, none, none, none, none, none, none⟩⟩]) "q" 3
      = String.join
          ([⟨"c", ⟨none, none, none, none, none, none, none, none, none⟩⟩].map renderChunk) ∧
    build_context (fun _ _ => .ok []) "q" 0 = "" := by
  have h1 := c6_build_context_bounded
    (fun _ _ => .ok [⟨"c", ⟨none, none, none, none, none, none, none, none, none⟩⟩]) "q" 3
    [⟨"c", ⟨none, none, none, none, none, none, none, none, none⟩⟩] rfl (by decide)
  have h2 := c6_build_context_bounded (fun _ _ => .ok []) "q" 0 [] rfl (by decide)
  exact ⟨h1.1, h2.2.2 rfl⟩

/-- C7: after any loop iteration — exit command, empty-input warning,
answered turn (model success or caught failure), or even a crashing legacy
turn — the previous message list is a prefix of the resulting transcript:
entries are never modified, reordered, removed or pruned. -/
theorem c7_transcript_monotone (llm : String → Except String String)
    (search : String → Nat → Except String (List Chunk))
    (searchL : String → Nat → List Chunk) (num_similar : Nat)
    (msgs : List Msg) (input : String) :
    msgs <+: (session_step llm search num_similar msgs input).transcript ∧
    msgs <+: (session_step_legacy llm searchL num_similar msgs input).transcript := by
  constructor
  · simp only [session_step]
    by_cases h1 : pyLower (pyStripStr input) ∈ EXIT_COMMANDS
    · rw [if_pos h1]
      exact ⟨[], List.append_nil _⟩
    · rw [if_neg h1]
      by_cases h2 : pyStripStr input = ""
      · rw [if_pos h2]
        exact ⟨[], List.append_nil _⟩
      · rw [if_neg h2]
        unfold call_model
        cases llm (call_model_prompt search num_similar
            (msgs ++ [⟨Role.human, pyStripStr input⟩])) with
        | ok r =>
          exact ⟨[⟨Role.human, pyStripStr input⟩, ⟨Role.system, r⟩],
            by simp [StepOutcome.transcript]⟩
        | error e =>
          exact ⟨[⟨Role.human, pyStripStr input⟩,
            ⟨Role.system, "❌ Error calling language model: " ++ e⟩],
            by simp [StepOutcome.transcript]⟩
  · simp only [session_step_legacy]
    by_cases h1 : pyLower input ∈ [":salir", ":exit", ":terminar"]
    · rw [if_pos h1]
      exact ⟨[], List.append_nil _⟩
    · rw [if_neg h1]
      unfold call_model_legacy
      cases llm (call_model_legacy_prompt searchL num_similar
          (msgs ++ [⟨Role.human, input⟩])) with
      | ok r =>
        exact ⟨[⟨Role.human, input⟩, ⟨Role.system, r⟩], by simp [StepOutcome.transcript]⟩
      | error e =>
        exact ⟨[⟨Role.human, input⟩], by simp [StepOutcome.transcript]⟩

/-- C8: an empty or whitespace-only input line (which is never an exit
command) takes the warning branch and returns to awaiting input: the
transcript is unchanged, and neither the retriever nor the model is
consulted — the outcome does not depend on either collaborator. -/
theorem c8_empty_input_noop (llm llm' : String → Except String String)
    (search search' : String → Nat → Except String (List Chunk))
    (num_similar : Nat) (msgs : List Msg) (input : String)
    (h : pyStripStr input = "") :
    session_step llm search num_similar msgs input = .warnedEmpty msgs ∧
    session_step llm search num_similar msgs input
      = session_step llm' search' num_similar msgs input := by
  have hmem : pyLower (pyStripStr input) ∉ EXIT_COMMANDS := by
    rw [h]
    decide
  constructor
  · simp only [session_step]
    rw [if_neg hmem, if_pos h]
  · simp only [session_step]
    rw [if_neg hmem, if_pos h, if_neg hmem, if_pos h]

/-- C8 witness: a whitespace-only input line on the initial state. -/
theorem c8_witness :
    session_step (fun _ => .ok "r") (fun _ _ => .ok []) 6 initial_messages "   "
      = .warnedEmpty initial_messages :=
  (c8_empty_input_noop (fun _ => .ok "r") (fun _ => .ok "r") (fun _ _ => .ok [])
    (fun _ _ => .ok []) 6 initial_messages "   " (by decide)).1
